import Mathlib

/-!
Verification of the command policy and execution engine of super-shell-mcp
(src/services/command_service.py), shallowly embedded in Lean.

Python strings are modelled as lists of characters, Python dicts as
functional maps from keys to optional values (get, set, pop), and the
stateful methods of CommandService as pure functions on an explicit
ServiceState, returning the events they emit and the completion-handle
actions they perform.  Subprocess execution is external input: the
executor paths take the child outcome as a parameter.
-/

namespace SuperShellMcp

/-- Python str, modelled as a list of characters. -/
abbrev Str := List Char

/-- Coerce a Lean string literal to the Python string model. -/
def strLit (s : String) : Str := s.data

/-- Python dict, modelled by its lookup function. -/
def Dict (V : Type) : Type := Str → Option V

/-- The empty dict. -/
def Dict.empty {V : Type} : Dict V := fun _ => none

/-- Python dict assignment, d[k] = v. -/
def Dict.set {V : Type} (m : Dict V) (k : Str) (v : V) : Dict V :=
  fun q => if q = k then some v else m q

/-- Python d.pop(k, None): remove the key, no error when absent. -/
def Dict.pop {V : Type} (m : Dict V) (k : Str) : Dict V :=
  fun q => if q = k then none else m q

/-- CommandSecurityLevel enum of command_service.py. -/
inductive CommandSecurityLevel where
  | SAFE
  | REQUIRES_APPROVAL
  | FORBIDDEN
deriving DecidableEq, Repr

/-- CommandWhitelistEntry dataclass of command_service.py. -/
structure CommandWhitelistEntry where
  command : Str
  security_level : CommandSecurityLevel
  allowed_args : Option (List Str) := none
  description : Option Str := none
deriving DecidableEq, Repr

/-- CommandResult dataclass: only stdout and stderr, no exit code field. -/
structure CommandResult where
  stdout : Str
  stderr : Str
deriving DecidableEq, Repr

/-- PendingCommand dataclass, without the resolve and reject closures:
completion-handle behavior is modelled by explicit HandleAction values. -/
structure PendingCommand where
  id : Str
  command : Str
  args : List Str
  requested_at : Nat
  requested_by : Option Str
deriving DecidableEq, Repr

/-- Python exceptions raised by the service. -/
inductive PyError where
  | runtimeError (msg : Str)
  | nameError (name : Str)
deriving DecidableEq, Repr

/-- Events emitted on the service (EventEmitter.emit calls). -/
inductive Event where
  | pending (p : PendingCommand)
  | approved (commandId : Str) (stdout : Str) (stderr : Str)
  | denied (commandId : Str) (reason : Str)
  | failed (commandId : Str) (error : PyError)
  | approval_timeout (commandId : Str) (message : Str)
deriving DecidableEq, Repr

/-- Actions performed on the one-shot completion handle of a pending
command (calls to its resolve or reject closure). -/
inductive HandleAction where
  | resolve (result : CommandResult)
  | reject (error : PyError)
deriving DecidableEq, Repr

/-- Mutable state of a CommandService instance: the whitelist dict and the
pending_commands dict, plus the default timeout in milliseconds. -/
structure ServiceState where
  whitelist : Dict CommandWhitelistEntry
  pending_commands : Dict PendingCommand
  default_timeout : Nat := 30000

/-- Python s.split(sep)[-1] for a one-character separator: the suffix of s
after the last occurrence of sep (s itself when sep does not occur). -/
def pySplitLast (sep : Char) : Str → Str
  | [] => []
  | c :: rest => if c = sep ∨ sep ∈ rest then pySplitLast sep rest else c :: rest

/-- command.split(chr 92)[-1].split(chr 47)[-1]: the base-name
normalization used both by _validate_command and by the whitelist seeding. -/
def base_command (command : Str) : Str :=
  pySplitLast '/' (pySplitLast '\\' command)

/-- The for-loop body of _validate_command over enumerate(args): pat is
allowed_args[idx] when idx is in range else None; a missing pattern or an
exact-match failure takes the early REQUIRES_APPROVAL return (false here). -/
def args_match (pats : List Str) : List Str → Nat → Bool
  | [], _ => true
  | arg :: rest, idx =>
    match pats.get? idx with
    | none => false
    | some pat => if arg = pat then args_match pats rest (idx + 1) else false

/-- CommandService._validate_command: normalize to the base name, look the
entry up, FORBIDDEN short-circuits, then the allowed_args check.  The
Python guard is the truthiness test if entry.allowed_args, which is false
both for None and for the empty list. -/
def _validate_command (whitelist : Dict CommandWhitelistEntry)
    (command : Str) (args : List Str) : Option CommandSecurityLevel :=
  match whitelist (base_command command) with
  | none => none
  | some entry =>
    if entry.security_level = CommandSecurityLevel.FORBIDDEN then
      some CommandSecurityLevel.FORBIDDEN
    else
      match entry.allowed_args with
      | none => some entry.security_level
      | some pats =>
        if pats = [] then
          some entry.security_level
        else if args.length > pats.length then
          some CommandSecurityLevel.REQUIRES_APPROVAL
        else if args_match pats args 0 then
          some entry.security_level
        else
          some CommandSecurityLevel.REQUIRES_APPROVAL

/-- CommandService.add_to_whitelist: plain dict assignment keyed by
entry.command, with no normalization. -/
def add_to_whitelist (st : ServiceState) (entry : CommandWhitelistEntry) :
    ServiceState :=
  { st with whitelist := st.whitelist.set entry.command entry }

/-- CommandService.remove_from_whitelist. -/
def remove_from_whitelist (st : ServiceState) (command : Str) : ServiceState :=
  { st with whitelist := st.whitelist.pop command }

/-- Membership of an id in get_pending_commands(), which returns
list(self.pending_commands.values()). -/
def get_pending_commands_contains (st : ServiceState) (command_id : Str) : Bool :=
  (st.pending_commands command_id).isSome

/-- Outcome of the dispatch in execute_command before any subprocess work:
either one of the two immediate RuntimeError raises, or the command was
queued for approval, or the SAFE path proceeds to _run_now. -/
inductive ExecuteStep where
  | failed (error : PyError)
  | queued (commandId : Str)
  | ran_immediately
deriving DecidableEq, Repr

/-- CommandService.execute_command up to the point where a subprocess would
be spawned.  fresh_id stands for str(uuid.uuid4()) and now for loop.time();
the REQUIRES_APPROVAL branch performs the insert and pending-event emit of
_queue_command_for_approval. -/
def execute_command (st : ServiceState) (command : Str) (args : List Str)
    (fresh_id : Str) (now : Nat) (requested_by : Option Str) :
    ExecuteStep × ServiceState × List Event :=
  match _validate_command st.whitelist command args with
  | none =>
    (.failed (.runtimeError (strLit "Command not whitelisted: " ++ command)), st, [])
  | some CommandSecurityLevel.FORBIDDEN =>
    (.failed (.runtimeError (strLit "Command is forbidden: " ++ command)), st, [])
  | some CommandSecurityLevel.REQUIRES_APPROVAL =>
    let p : PendingCommand :=
      { id := fresh_id, command := command, args := args,
        requested_at := now, requested_by := requested_by }
    (.queued fresh_id,
     { st with pending_commands := st.pending_commands.set fresh_id p },
     [Event.pending p])
  | some CommandSecurityLevel.SAFE =>
    (.ran_immediately, st, [])

/-- Observable result of CommandService.approve_command: the value returned
or exception raised, the final state, the emitted events, the actions on
the completion handle of the pending command, and the contents of the
pending_commands dict at the moment _run_now is awaited (none when no
execution was attempted). -/
structure ApproveOutcome where
  ret : Except PyError CommandResult
  state : ServiceState
  events : List Event
  handle : List HandleAction
  pending_at_exec : Option (Dict PendingCommand)

/-- CommandService.approve_command, with the outcome of the awaited
_run_now supplied as the run parameter.  The method looks the pending
record up, raises when absent, otherwise awaits _run_now first and only
afterwards pops the record, emits, and resolves or rejects the handle;
the dict passed along as pending_at_exec is the one visible while the
subprocess runs. -/
def approve_command (st : ServiceState) (command_id : Str)
    (run : Except PyError CommandResult) : ApproveOutcome :=
  match st.pending_commands command_id with
  | none =>
    { ret := .error (.runtimeError
        (strLit "No pending command with ID: " ++ command_id)),
      state := st, events := [], handle := [], pending_at_exec := none }
  | some _pending =>
    match run with
    | .ok result =>
      { ret := .ok result,
        state := { st with pending_commands := st.pending_commands.pop command_id },
        events := [Event.approved command_id result.stdout result.stderr],
        handle := [HandleAction.resolve result],
        pending_at_exec := some st.pending_commands }
    | .error e =>
      { ret := .error e,
        state := { st with pending_commands := st.pending_commands.pop command_id },
        events := [Event.failed command_id e],
        handle := [HandleAction.reject e],
        pending_at_exec := some st.pending_commands }

/-- CommandService.deny_command: raise when the id is absent, otherwise pop
the record, emit the denied event, and reject the handle with
RuntimeError(reason).  The second component is the state after the call. -/
def deny_command (st : ServiceState) (command_id : Str) (reason : Str) :
    Except PyError (List Event × List HandleAction) × ServiceState :=
  match st.pending_commands command_id with
  | none =>
    (.error (.runtimeError (strLit "No pending command with ID: " ++ command_id)), st)
  | some _pending =>
    (.ok ([Event.denied command_id reason],
          [HandleAction.reject (.runtimeError reason)]),
     { st with pending_commands := st.pending_commands.pop command_id })

/-- The fixed advisory delay passed to loop.call_later in both queue modes. -/
def approval_timeout_delay_seconds : Nat := 5

/-- The message carried by the approval_timeout event. -/
def approval_timeout_message : Str :=
  strLit ("Command approval timed out. If you approved this command in the UI, " ++
    "please use get_pending_commands and approve_command to complete the process.")

/-- The _timeout_check closure scheduled by both queue modes: emit the
advisory event when the id is still a key of pending_commands, otherwise do
nothing; the state is returned to record that the callback never writes it. -/
def _timeout_check (st : ServiceState) (cmd_id : Str) :
    List Event × ServiceState :=
  if (st.pending_commands cmd_id).isSome then
    ([Event.approval_timeout cmd_id approval_timeout_message], st)
  else
    ([], st)

/-- Line 338 of command_service.py: the per-call timeout when supplied,
otherwise the default configured at construction (milliseconds, before the
division by 1000). -/
def effective_timeout_ms (default_timeout : Nat) (timeout : Option Nat) : Nat :=
  match timeout with
  | some t => t
  | none => default_timeout

/-- The names imported at module level by command_service.py: asyncio,
shlex, uuid, pieces of dataclasses, enum and typing, and the three
platform helpers; contextlib is not among them. -/
def command_service_module_imports : List String :=
  ["asyncio", "shlex", "uuid", "dataclass", "field", "Enum",
   "Callable", "Dict", "List", "Optional", "Sequence", "Tuple",
   "get_default_shell", "PlatformType", "detect_platform"]

/-- What the asyncio.TimeoutError handler of _run_now produces. -/
structure TimeoutPathResult where
  kill_attempted : Bool
  raised : PyError
deriving DecidableEq, Repr

/-- The except asyncio.TimeoutError branch of _run_now.  Its first
statement evaluates contextlib.suppress(ProcessLookupError); when the name
contextlib resolves, proc.kill() runs and the RuntimeError timeout message
is raised, and when it does not resolve a NameError is raised before
proc.kill() is ever reached. -/
def _run_now_timeout_path : TimeoutPathResult :=
  if command_service_module_imports.contains "contextlib" then
    { kill_attempted := true,
      raised := .runtimeError (strLit "Command execution failed: timeout") }
  else
    { kill_attempted := false, raised := .nameError (strLit "contextlib") }

/-- The Unicode replacement character used by errors="replace" decoding. -/
def replacement_char : Char := Char.ofNat 0xFFFD

/-- Fueled UTF-8 decoding with replacement: each step consumes at least one
byte, so fuel equal to the byte count decodes everything.  Valid one- to
four-byte sequences (continuation bytes in 128..191, no overlong forms, no
surrogates, at most U+10FFFF) decode to their code point; any other byte
is replaced and consumed alone. -/
def utf8DecodeLoop : Nat → List Nat → List Char
  | 0, _ => []
  | _ + 1, [] => []
  | fuel + 1, b :: rest =>
    if b < 128 then
      Char.ofNat b :: utf8DecodeLoop fuel rest
    else if 194 ≤ b ∧ b ≤ 223 then
      match rest with
      | b2 :: r2 =>
        if 128 ≤ b2 ∧ b2 < 192 then
          Char.ofNat ((b - 192) * 64 + (b2 - 128)) :: utf8DecodeLoop fuel r2
        else
          replacement_char :: utf8DecodeLoop fuel rest
      | [] => [replacement_char]
    else if 224 ≤ b ∧ b ≤ 239 then
      match rest with
      | b2 :: b3 :: r3 =>
        if (128 ≤ b2 ∧ b2 < 192) ∧ (128 ≤ b3 ∧ b3 < 192) ∧
            (b = 224 → 160 ≤ b2) ∧ (b = 237 → b2 < 160) then
          Char.ofNat ((b - 224) * 4096 + (b2 - 128) * 64 + (b3 - 128)) ::
            utf8DecodeLoop fuel r3
        else
          replacement_char :: utf8DecodeLoop fuel rest
      | _ => replacement_char :: utf8DecodeLoop fuel rest
    else if 240 ≤ b ∧ b ≤ 244 then
      match rest with
      | b2 :: b3 :: b4 :: r4 =>
        if (128 ≤ b2 ∧ b2 < 192) ∧ (128 ≤ b3 ∧ b3 < 192) ∧
            (128 ≤ b4 ∧ b4 < 192) ∧ (b = 240 → 144 ≤ b2) ∧ (b = 244 → b2 < 144) then
          Char.ofNat ((b - 240) * 262144 + (b2 - 128) * 4096 +
              (b3 - 128) * 64 + (b4 - 128)) :: utf8DecodeLoop fuel r4
        else
          replacement_char :: utf8DecodeLoop fuel rest
      | _ => replacement_char :: utf8DecodeLoop fuel rest
    else
      replacement_char :: utf8DecodeLoop fuel rest

/-- Python bytes.decode(errors="replace"): total, never raises. -/
def pyDecodeReplace (bs : List Nat) : Str :=
  utf8DecodeLoop bs.length bs

/-- What proc.communicate() produced when the child finished in time:
captured stream bytes and the exit status. -/
structure ChildOutcome where
  stdout_b : List Nat
  stderr_b : List Nat
  exit_code : Int
deriving DecidableEq, Repr

/-- The tail of _run_now for a child that completed within the timeout:
decode each captured stream with replacement (empty or missing bytes give
the empty string) and build the CommandResult.  The exit status is never
consulted. -/
def _run_now_complete (outcome : ChildOutcome) : CommandResult :=
  { stdout := if outcome.stdout_b ≠ [] then pyDecodeReplace outcome.stdout_b else [],
    stderr := if outcome.stderr_b ≠ [] then pyDecodeReplace outcome.stderr_b else [] }

/-! Concrete sample data used to evaluate the theorems on closed inputs. -/

/-- A SAFE entry restricting git to the single argument status. -/
def sample_git_entry : CommandWhitelistEntry :=
  { command := strLit "git", security_level := .SAFE,
    allowed_args := some [strLit "status"] }

/-- A whitelist holding only the git entry. -/
def sample_git_whitelist : Dict CommandWhitelistEntry :=
  Dict.empty.set (strLit "git") sample_git_entry

/-- A SAFE entry whose allowed_args field is present but empty. -/
def sample_empty_args_entry : CommandWhitelistEntry :=
  { command := strLit "tool", security_level := .SAFE, allowed_args := some [] }

/-- A whitelist holding only the empty-allowed-args entry. -/
def sample_empty_args_whitelist : Dict CommandWhitelistEntry :=
  Dict.empty.set (strLit "tool") sample_empty_args_entry

/-- A FORBIDDEN entry for rm. -/
def sample_forbidden_entry : CommandWhitelistEntry :=
  { command := strLit "rm", security_level := .FORBIDDEN }

/-- A service state whose whitelist holds only the FORBIDDEN rm entry. -/
def sample_forbidden_state : ServiceState :=
  { whitelist := Dict.empty.set (strLit "rm") sample_forbidden_entry,
    pending_commands := Dict.empty }

/-- A service state with an empty whitelist and no pending commands. -/
def sample_empty_state : ServiceState :=
  { whitelist := Dict.empty, pending_commands := Dict.empty }

/-- A concrete pending command record. -/
def sample_pending : PendingCommand :=
  { id := strLit "id-1", command := strLit "mkdir", args := [strLit "testdir"],
    requested_at := 0, requested_by := none }

/-- A service state holding exactly the sample pending command. -/
def sample_pending_state : ServiceState :=
  { whitelist := Dict.empty,
    pending_commands := Dict.empty.set (strLit "id-1") sample_pending }

/-- A whitelist entry whose command field carries a path prefix. -/
def sample_pathed_entry : CommandWhitelistEntry :=
  { command := strLit "/usr/bin/tool", security_level := .SAFE }

/-- echo as SAFE. -/
def sample_echo_safe : CommandWhitelistEntry :=
  { command := strLit "echo", security_level := .SAFE }

/-- echo as FORBIDDEN. -/
def sample_echo_forbidden : CommandWhitelistEntry :=
  { command := strLit "echo", security_level := .FORBIDDEN }

/-! Helper lemmas. -/

theorem Dict.get_set_self {V : Type} (m : Dict V) (k : Str) (v : V) :
    m.set k v k = some v := by
  simp [Dict.set]

theorem Dict.get_set_ne {V : Type} (m : Dict V) (k q : Str) (v : V) (h : q ≠ k) :
    m.set k v q = m q := by
  simp [Dict.set, h]

theorem Dict.get_pop_self {V : Type} (m : Dict V) (k : Str) :
    m.pop k k = none := by
  simp [Dict.pop]

theorem Dict.get_pop_ne {V : Type} (m : Dict V) (k q : Str) (h : q ≠ k) :
    m.pop k q = m q := by
  simp [Dict.pop, h]

theorem pySplitLast_not_mem (sep : Char) (s : Str) : sep ∉ pySplitLast sep s := by
  induction s with
  | nil => simp [pySplitLast]
  | cons c rest ih =>
    rw [pySplitLast]
    split
    · exact ih
    · rename_i h
      push_neg at h
      intro hmem
      rcases List.mem_cons.mp hmem with h1 | h2
      · exact h.1 h1.symm
      · exact h.2 h2

theorem pySplitLast_suffix (sep : Char) (s : Str) : pySplitLast sep s <:+ s := by
  induction s with
  | nil => exact List.suffix_refl _
  | cons c rest ih =>
    rw [pySplitLast]
    split
    · exact ih.trans (List.suffix_cons c rest)
    · exact List.suffix_refl _

theorem pySplitLast_split (sep : Char) (s : Str) :
    pySplitLast sep s = s ∨ ∃ pre : Str, s = pre ++ sep :: pySplitLast sep s := by
  induction s with
  | nil => exact Or.inl rfl
  | cons c rest ih =>
    rw [pySplitLast]
    split
    · rename_i h
      rcases ih with heq | ⟨pre, hpre⟩
      · have hnot : sep ∉ rest := heq ▸ pySplitLast_not_mem sep rest
        have hc : c = sep := by
          rcases h with h1 | h2
          · exact h1
          · exact absurd h2 hnot
        exact Or.inr ⟨[], by rw [heq, hc]; rfl⟩
      · exact Or.inr ⟨c :: pre, by rw [List.cons_append, ← hpre]⟩
    · exact Or.inl rfl

theorem pySplitLast_eq_self (sep : Char) {s : Str} (h : sep ∉ s) :
    pySplitLast sep s = s := by
  rcases pySplitLast_split sep s with heq | ⟨pre, hpre⟩
  · exact heq
  · exact absurd (by rw [hpre]; simp : sep ∈ s) h

theorem base_command_no_slash (command : Str) : '/' ∉ base_command command :=
  pySplitLast_not_mem '/' _

theorem base_command_no_backslash (command : Str) : '\\' ∉ base_command command :=
  fun hmem =>
    pySplitLast_not_mem '\\' command
      ((pySplitLast_suffix '/' (pySplitLast '\\' command)).subset hmem)

theorem base_command_suffix (command : Str) : base_command command <:+ command :=
  (pySplitLast_suffix '/' _).trans (pySplitLast_suffix '\\' command)

theorem base_command_split (command : Str) :
    base_command command = command ∨
      ∃ (pre : Str) (c : Char), (c = '/' ∨ c = '\\') ∧
        command = pre ++ c :: base_command command := by
  rcases pySplitLast_split '/' (pySplitLast '\\' command) with h1 | ⟨pre2, h2⟩
  · rcases pySplitLast_split '\\' command with h3 | ⟨pre1, h4⟩
    · exact Or.inl (by rw [base_command, h1, h3])
    · refine Or.inr ⟨pre1, '\\', Or.inr rfl, ?_⟩
      rw [base_command, h1, ← h4]
  · rcases pySplitLast_split '\\' command with h3 | ⟨pre1, h4⟩
    · refine Or.inr ⟨pre2, '/', Or.inl rfl, ?_⟩
      rw [base_command, ← h2, h3]
    · refine Or.inr ⟨pre1 ++ '\\' :: pre2, '/', Or.inl rfl, ?_⟩
      have hstep : command = pre1 ++ '\\' :: (pre2 ++ '/' :: base_command command) :=
        h4.trans (congrArg (fun t => pre1 ++ '\\' :: t) h2)
      exact hstep.trans (by simp)

theorem base_command_eq_self {s : Str} (h1 : '/' ∉ s) (h2 : '\\' ∉ s) :
    base_command s = s := by
  rw [base_command, pySplitLast_eq_self '\\' h2, pySplitLast_eq_self '/' h1]

theorem args_match_iff (pats : List Str) :
    ∀ (args : List Str) (idx : Nat),
      args_match pats args idx = true ↔
        ∀ j, j < args.length → pats.get? (idx + j) = args.get? j := by
  intro args
  induction args with
  | nil =>
    intro idx
    simp [args_match]
  | cons a rest ih =>
    intro idx
    rw [args_match]
    split
    · rename_i hp
      constructor
      · intro h
        exact absurd h (by simp)
      · intro h
        have h0 := h 0 (by simp)
        rw [Nat.add_zero, hp] at h0
        simp at h0
    · rename_i pat hp
      split
      · rename_i hap
        rw [ih (idx + 1)]
        constructor
        · intro h j hj
          cases j with
          | zero => simp only [Nat.add_zero, List.get?_cons_zero, hp, hap]
          | succ j2 =>
            have hj2 : j2 < rest.length := by
              have := hj
              simp at this
              omega
            have hstep := h j2 hj2
            rw [show idx + (j2 + 1) = idx + 1 + j2 by omega]
            simpa using hstep
        · intro h j hj
          have hstep := h (j + 1) (by simp; omega)
          rw [show idx + 1 + j = idx + (j + 1) by omega]
          simpa using hstep
      · rename_i hap
        constructor
        · intro h
          exact absurd h (by simp)
        · intro h
          have h0 := h 0 (by simp)
          rw [Nat.add_zero, hp] at h0
          have hpa : pat = a := by simpa using h0
          exact absurd hpa.symm hap

theorem _validate_command_lookup_none {wl : Dict CommandWhitelistEntry}
    {cmd : Str} (h : wl (base_command cmd) = none) (args : List Str) :
    _validate_command wl cmd args = none := by
  unfold _validate_command
  rw [h]

theorem _validate_command_forbidden {wl : Dict CommandWhitelistEntry}
    {cmd : Str} {entry : CommandWhitelistEntry}
    (h : wl (base_command cmd) = some entry)
    (hf : entry.security_level = .FORBIDDEN) (args : List Str) :
    _validate_command wl cmd args = some .FORBIDDEN := by
  unfold _validate_command
  rw [h]
  simp [hf]

theorem execute_command_not_whitelisted {st : ServiceState} {cmd : Str}
    (h : st.whitelist (base_command cmd) = none) (args : List Str)
    (fresh_id : Str) (now : Nat) (requested_by : Option Str) :
    execute_command st cmd args fresh_id now requested_by =
      (.failed (.runtimeError (strLit "Command not whitelisted: " ++ cmd)), st, []) := by
  unfold execute_command
  rw [_validate_command_lookup_none h]

theorem execute_command_forbidden_entry {st : ServiceState} {cmd : Str}
    {entry : CommandWhitelistEntry}
    (h : st.whitelist (base_command cmd) = some entry)
    (hf : entry.security_level = .FORBIDDEN) (args : List Str)
    (fresh_id : Str) (now : Nat) (requested_by : Option Str) :
    execute_command st cmd args fresh_id now requested_by =
      (.failed (.runtimeError (strLit "Command is forbidden: " ++ cmd)), st, []) := by
  unfold execute_command
  rw [_validate_command_forbidden h hf]

/-- Reduction of _validate_command for an entry that is not FORBIDDEN and
has a nonempty allowed_args list. -/
theorem _validate_command_nonempty_eq {wl : Dict CommandWhitelistEntry}
    {cmd : Str} {entry : CommandWhitelistEntry} {pats : List Str}
    (h : wl (base_command cmd) = some entry)
    (hnf : entry.security_level ≠ CommandSecurityLevel.FORBIDDEN)
    (ha : entry.allowed_args = some pats) (hne : pats ≠ []) (args : List Str) :
    _validate_command wl cmd args =
      (if args.length > pats.length then
        some CommandSecurityLevel.REQUIRES_APPROVAL
      else if args_match pats args 0 then
        some entry.security_level
      else
        some CommandSecurityLevel.REQUIRES_APPROVAL) := by
  unfold _validate_command
  simp only [h]
  rw [if_neg hnf]
  simp only [ha]
  rw [if_neg hne]

/-! Claim theorems. -/

/-- Claim C10: an entry whose allowed_args field is present but empty, and
whose level is not FORBIDDEN, classifies every argument list at the entry
level: the Python truthiness guard treats the empty pattern list exactly
like an absent allowed_args, with no escalation. -/
theorem empty_allowed_args_no_restriction
    (wl : Dict CommandWhitelistEntry) (command : Str) (args : List Str)
    (entry : CommandWhitelistEntry)
    (h : wl (base_command command) = some entry)
    (he : entry.allowed_args = some [])
    (hn : entry.security_level ≠ CommandSecurityLevel.FORBIDDEN) :
    _validate_command wl command args = some entry.security_level := by
  unfold _validate_command
  simp only [h]
  rw [if_neg hn]
  simp only [he]
  simp

/-- Claim C10 witness: the concrete empty-allowed-args SAFE entry for tool
classifies a three-argument call as SAFE. -/
theorem empty_allowed_args_no_restriction_witness :
    sample_empty_args_whitelist (base_command (strLit "tool")) =
      some sample_empty_args_entry ∧
    sample_empty_args_entry.allowed_args = some [] ∧
    sample_empty_args_entry.security_level ≠ CommandSecurityLevel.FORBIDDEN ∧
    _validate_command sample_empty_args_whitelist (strLit "tool")
      [strLit "anything", strLit "at", strLit "all"] =
      some CommandSecurityLevel.SAFE :=
  ⟨by decide, by decide, by decide,
   empty_allowed_args_no_restriction sample_empty_args_whitelist (strLit "tool")
     [strLit "anything", strLit "at", strLit "all"] sample_empty_args_entry
     (by decide) (by decide) (by decide)⟩

/-- Claim C1 counterexample: an entry whose allowed_args is set (to the
empty list) and whose level is SAFE, with one supplied argument, which is
more arguments than allowed_args has positions.  The claim requires
classification REQUIRES_APPROVAL, but the code returns SAFE because the
truthiness guard skips the whole check for an empty list. -/
theorem empty_allowed_args_escapes_escalation_cex :
    sample_empty_args_entry.security_level ≠ CommandSecurityLevel.FORBIDDEN ∧
    sample_empty_args_entry.allowed_args = some [] ∧
    sample_empty_args_whitelist (base_command (strLit "tool")) =
      some sample_empty_args_entry ∧
    [strLit "x"].length > ([] : List Str).length ∧
    _validate_command sample_empty_args_whitelist (strLit "tool") [strLit "x"] =
      some CommandSecurityLevel.SAFE ∧
    _validate_command sample_empty_args_whitelist (strLit "tool") [strLit "x"] ≠
      some CommandSecurityLevel.REQUIRES_APPROVAL := by
  decide

/-- Claim C1 as amended: for an entry that is not FORBIDDEN and whose
allowed_args is set and nonempty, classification escalates to
REQUIRES_APPROVAL when more arguments are supplied than allowed_args has
positions, escalates on any positional exact-match failure, returns the
entry level when every supplied argument matches its positional pattern,
and returns SAFE only when the entry level is SAFE and every argument
matches. -/
theorem nonempty_allowed_args_positional_matching
    (wl : Dict CommandWhitelistEntry) (command : Str) (args : List Str)
    (entry : CommandWhitelistEntry) (pats : List Str)
    (h : wl (base_command command) = some entry)
    (hnf : entry.security_level ≠ CommandSecurityLevel.FORBIDDEN)
    (ha : entry.allowed_args = some pats) (hne : pats ≠ []) :
    (args.length > pats.length →
      _validate_command wl command args =
        some CommandSecurityLevel.REQUIRES_APPROVAL) ∧
    (args.length ≤ pats.length →
      (∃ j, j < args.length ∧ pats.get? j ≠ args.get? j) →
      _validate_command wl command args =
        some CommandSecurityLevel.REQUIRES_APPROVAL) ∧
    (args.length ≤ pats.length →
      (∀ j, j < args.length → pats.get? j = args.get? j) →
      _validate_command wl command args = some entry.security_level) ∧
    (_validate_command wl command args = some CommandSecurityLevel.SAFE →
      entry.security_level = CommandSecurityLevel.SAFE ∧
      args.length ≤ pats.length ∧
      ∀ j, j < args.length → pats.get? j = args.get? j) := by
  have heq := _validate_command_nonempty_eq h hnf ha hne args
  refine ⟨?_, ?_, ?_, ?_⟩
  · intro hgt
    rw [heq, if_pos hgt]
  · intro hle hex
    have hm : args_match pats args 0 = false := by
      cases hb : args_match pats args 0
      · rfl
      · exfalso
        rcases hex with ⟨j, hj, hne2⟩
        have := ((args_match_iff pats args 0).mp hb) j hj
        rw [Nat.zero_add] at this
        exact hne2 this
    rw [heq, if_neg (by omega), hm]
    simp
  · intro hle hall
    have hm : args_match pats args 0 = true :=
      (args_match_iff pats args 0).mpr (fun j hj => by
        rw [Nat.zero_add]
        exact hall j hj)
    rw [heq, if_neg (by omega), hm]
    simp
  · intro hv
    rw [heq] at hv
    by_cases hgt : args.length > pats.length
    · rw [if_pos hgt] at hv
      exact absurd hv (by simp)
    · rw [if_neg hgt] at hv
      cases hb : args_match pats args 0 with
      | false =>
        rw [hb] at hv
        simp at hv
      | true =>
        rw [hb] at hv
        simp at hv
        refine ⟨hv, by omega, fun j hj => ?_⟩
        have := ((args_match_iff pats args 0).mp hb) j hj
        rw [Nat.zero_add] at this
        exact this

/-- Claim C1 witness: the git entry with allowed_args of one position,
called with the matching argument status, classifies as SAFE. -/
theorem nonempty_allowed_args_positional_matching_witness :
    sample_git_whitelist (base_command (strLit "git")) = some sample_git_entry ∧
    sample_git_entry.security_level ≠ CommandSecurityLevel.FORBIDDEN ∧
    sample_git_entry.allowed_args = some [strLit "status"] ∧
    ([strLit "status"] : List Str) ≠ [] ∧
    _validate_command sample_git_whitelist (strLit "git") [strLit "status"] =
      some CommandSecurityLevel.SAFE :=
  ⟨by decide, by decide, rfl, by decide,
   (nonempty_allowed_args_positional_matching sample_git_whitelist (strLit "git")
      [strLit "status"] sample_git_entry [strLit "status"]
      (by decide) (by decide) rfl (by decide)).2.2.1
     (by decide) (by decide)⟩

/-- Claim C4: a FORBIDDEN registry entry classifies every argument list as
FORBIDDEN, and execute_command fails with the forbidden RuntimeError
leaving the state untouched. -/
theorem forbidden_entry_rejects_unconditionally
    (st : ServiceState) (command : Str) (args : List Str)
    (entry : CommandWhitelistEntry) (fresh_id : Str) (now : Nat)
    (requested_by : Option Str)
    (h : st.whitelist (base_command command) = some entry)
    (hf : entry.security_level = CommandSecurityLevel.FORBIDDEN) :
    _validate_command st.whitelist command args =
      some CommandSecurityLevel.FORBIDDEN ∧
    execute_command st command args fresh_id now requested_by =
      (.failed (.runtimeError (strLit "Command is forbidden: " ++ command)),
       st, []) :=
  ⟨_validate_command_forbidden h hf args,
   execute_command_forbidden_entry h hf args fresh_id now requested_by⟩

/-- Claim C4 witness: the FORBIDDEN rm entry rejects a concrete call. -/
theorem forbidden_entry_rejects_unconditionally_witness :
    sample_forbidden_state.whitelist (base_command (strLit "rm")) =
      some sample_forbidden_entry ∧
    sample_forbidden_entry.security_level = CommandSecurityLevel.FORBIDDEN ∧
    _validate_command sample_forbidden_state.whitelist (strLit "rm")
      [strLit "-rf", strLit "/"] = some CommandSecurityLevel.FORBIDDEN ∧
    execute_command sample_forbidden_state (strLit "rm")
      [strLit "-rf", strLit "/"] (strLit "id-9") 0 none =
      (.failed (.runtimeError (strLit "Command is forbidden: " ++ strLit "rm")),
       sample_forbidden_state, []) := by
  have happ := forbidden_entry_rejects_unconditionally sample_forbidden_state
    (strLit "rm") [strLit "-rf", strLit "/"] sample_forbidden_entry
    (strLit "id-9") 0 none (by decide) (by decide)
  exact ⟨by decide, by decide, happ.1, happ.2⟩

/-- Claim C5: classification normalizes the command to the last path
segment under either separator (the base command contains no separator, is
a suffix of the command, and is preceded in the command by a separator
unless it is the whole command), and a lookup miss on the base name makes
execute_command fail with the not-whitelisted RuntimeError, leaving the
state, in particular the pending mapping, untouched. -/
theorem base_name_normalization_and_not_whitelisted (command : Str) :
    ('/' ∉ base_command command ∧ '\\' ∉ base_command command ∧
      base_command command <:+ command ∧
      (base_command command = command ∨
        ∃ (pre : Str) (c : Char), (c = '/' ∨ c = '\\') ∧
          command = pre ++ c :: base_command command)) ∧
    ∀ (st : ServiceState) (args : List Str) (fresh_id : Str) (now : Nat)
      (requested_by : Option Str),
      st.whitelist (base_command command) = none →
      _validate_command st.whitelist command args = none ∧
      execute_command st command args fresh_id now requested_by =
        (.failed (.runtimeError (strLit "Command not whitelisted: " ++ command)),
         st, []) ∧
      (execute_command st command args fresh_id now requested_by).2.1.pending_commands =
        st.pending_commands := by
  refine ⟨⟨base_command_no_slash command, base_command_no_backslash command,
    base_command_suffix command, base_command_split command⟩, ?_⟩
  intro st args fresh_id now requested_by h
  refine ⟨_validate_command_lookup_none h args,
    execute_command_not_whitelisted h args fresh_id now requested_by, ?_⟩
  rw [execute_command_not_whitelisted h args fresh_id now requested_by]

/-- Claim C5 witness: a pathed command absent from an empty whitelist. -/
theorem base_name_normalization_and_not_whitelisted_witness :
    base_command (strLit "/usr/bin/frobnicate") = strLit "frobnicate" ∧
    sample_empty_state.whitelist (base_command (strLit "/usr/bin/frobnicate")) =
      none ∧
    execute_command sample_empty_state (strLit "/usr/bin/frobnicate") []
      (strLit "id-7") 0 none =
      (.failed (.runtimeError (strLit "Command not whitelisted: " ++
        strLit "/usr/bin/frobnicate")), sample_empty_state, []) :=
  ⟨by decide, by decide,
   (((base_name_normalization_and_not_whitelisted
      (strLit "/usr/bin/frobnicate")).2 sample_empty_state [] (strLit "id-7")
      0 none (by decide)).2).1⟩

/-- Claim C6 counterexample: add_to_whitelist stores the entry keyed by its
command field verbatim.  For an entry whose command is /usr/bin/tool, the
claim requires the key to be the normalized name tool, but the lookup at
tool misses while the lookup at the full path hits. -/
theorem add_to_whitelist_no_normalization_cex :
    base_command sample_pathed_entry.command = strLit "tool" ∧
    base_command sample_pathed_entry.command ≠ sample_pathed_entry.command ∧
    (add_to_whitelist sample_empty_state sample_pathed_entry).whitelist
      (strLit "tool") = none ∧
    (add_to_whitelist sample_empty_state sample_pathed_entry).whitelist
      (strLit "/usr/bin/tool") = some sample_pathed_entry := by
  decide

/-- Claim C6 as amended: add_to_whitelist stores the entry keyed by its
command field verbatim (no normalization on add); adding an entry for an
already-present command name overwrites the previous entry (last write
wins); a bare command name added first as SAFE and then as FORBIDDEN is
classified FORBIDDEN and execute_command on it fails with the forbidden
RuntimeError. -/
theorem add_overwrites_last_write_wins
    (st : ServiceState) (e1 e2 : CommandWhitelistEntry)
    (hsame : e1.command = e2.command) :
    ((add_to_whitelist st e1).whitelist e1.command = some e1) ∧
    (∀ k, k ≠ e1.command →
      (add_to_whitelist st e1).whitelist k = st.whitelist k) ∧
    ((add_to_whitelist (add_to_whitelist st e1) e2).whitelist e1.command =
      some e2) ∧
    (e2.security_level = CommandSecurityLevel.FORBIDDEN →
      base_command e2.command = e2.command →
      ∀ (args : List Str) (fresh_id : Str) (now : Nat)
        (requested_by : Option Str),
        execute_command (add_to_whitelist (add_to_whitelist st e1) e2)
            e2.command args fresh_id now requested_by =
          (.failed (.runtimeError
            (strLit "Command is forbidden: " ++ e2.command)),
           add_to_whitelist (add_to_whitelist st e1) e2, [])) := by
  refine ⟨Dict.get_set_self _ _ _, ?_, ?_, ?_⟩
  · intro k hk
    exact Dict.get_set_ne _ _ _ _ hk
  · rw [hsame]
    exact Dict.get_set_self _ _ _
  · intro hf hb args fresh_id now requested_by
    exact execute_command_forbidden_entry
      (by rw [hb]; exact Dict.get_set_self _ _ _) hf args fresh_id now
      requested_by

/-- Claim C6 witness: echo added as SAFE and then as FORBIDDEN is rejected
as forbidden by execute_command. -/
theorem add_overwrites_last_write_wins_witness :
    sample_echo_safe.command = sample_echo_forbidden.command ∧
    sample_echo_forbidden.security_level = CommandSecurityLevel.FORBIDDEN ∧
    (add_to_whitelist (add_to_whitelist sample_empty_state sample_echo_safe)
      sample_echo_forbidden).whitelist (strLit "echo") =
      some sample_echo_forbidden ∧
    execute_command
      (add_to_whitelist (add_to_whitelist sample_empty_state sample_echo_safe)
        sample_echo_forbidden) (strLit "echo") [] (strLit "id-3") 0 none =
      (.failed (.runtimeError (strLit "Command is forbidden: " ++ strLit "echo")),
       add_to_whitelist (add_to_whitelist sample_empty_state sample_echo_safe)
         sample_echo_forbidden, []) := by
  have happ := add_overwrites_last_write_wins sample_empty_state
    sample_echo_safe sample_echo_forbidden rfl
  exact ⟨rfl, rfl, happ.2.2.1, happ.2.2.2 rfl (by decide) [] (strLit "id-3") 0 none⟩

/-- Claim C7: deny_command on an absent id raises the no-pending
RuntimeError and leaves the state unchanged; on a present id it succeeds,
emits the denied event with id and reason, rejects the completion handle
with a RuntimeError carrying the reason, removes the id from the pending
mapping (so get_pending_commands no longer contains it), and leaves the
whitelist alone. -/
theorem deny_command_spec (st : ServiceState) (command_id reason : Str) :
    (st.pending_commands command_id = none →
      (deny_command st command_id reason).1 =
        .error (.runtimeError
          (strLit "No pending command with ID: " ++ command_id)) ∧
      (deny_command st command_id reason).2 = st) ∧
    (∀ p, st.pending_commands command_id = some p →
      (deny_command st command_id reason).1 =
        .ok ([Event.denied command_id reason],
             [HandleAction.reject (.runtimeError reason)]) ∧
      (deny_command st command_id reason).2.pending_commands command_id = none ∧
      get_pending_commands_contains (deny_command st command_id reason).2
        command_id = false ∧
      (deny_command st command_id reason).2.whitelist = st.whitelist) := by
  constructor
  · intro h
    simp [deny_command, h]
  · intro p h
    simp [deny_command, h, get_pending_commands_contains, Dict.pop]

/-- Claim C7 witness: deny on a missing id fails, deny on the present
sample id succeeds, rejects with the reason and empties the mapping. -/
theorem deny_command_spec_witness :
    sample_pending_state.pending_commands (strLit "missing") = none ∧
    (deny_command sample_pending_state (strLit "missing") (strLit "policy")).1 =
      .error (.runtimeError
        (strLit "No pending command with ID: " ++ strLit "missing")) ∧
    sample_pending_state.pending_commands (strLit "id-1") = some sample_pending ∧
    (deny_command sample_pending_state (strLit "id-1") (strLit "policy")).1 =
      .ok ([Event.denied (strLit "id-1") (strLit "policy")],
           [HandleAction.reject (.runtimeError (strLit "policy"))]) ∧
    get_pending_commands_contains
      (deny_command sample_pending_state (strLit "id-1") (strLit "policy")).2
      (strLit "id-1") = false :=
  ⟨by decide,
   ((deny_command_spec sample_pending_state (strLit "missing")
      (strLit "policy")).1 (by decide)).1,
   by decide,
   ((deny_command_spec sample_pending_state (strLit "id-1")
      (strLit "policy")).2 sample_pending (by decide)).1,
   ((deny_command_spec sample_pending_state (strLit "id-1")
      (strLit "policy")).2 sample_pending (by decide)).2.2.1⟩

/-- Claim C8: the advisory timer callback emits the approval_timeout event
exactly when the id is still in the pending mapping, never writes the
state, and afterwards the entry is still present and deny still succeeds
on it. -/
theorem timeout_check_advisory_only (st : ServiceState) (cmd_id reason : Str) :
    ((_timeout_check st cmd_id).1 =
        [Event.approval_timeout cmd_id approval_timeout_message] ↔
      get_pending_commands_contains st cmd_id = true) ∧
    ((_timeout_check st cmd_id).1 = [] ↔ st.pending_commands cmd_id = none) ∧
    (_timeout_check st cmd_id).2 = st ∧
    (∀ p, st.pending_commands cmd_id = some p →
      (_timeout_check st cmd_id).2.pending_commands cmd_id = some p ∧
      get_pending_commands_contains (_timeout_check st cmd_id).2 cmd_id = true ∧
      (deny_command (_timeout_check st cmd_id).2 cmd_id reason).1 =
        .ok ([Event.denied cmd_id reason],
             [HandleAction.reject (.runtimeError reason)])) := by
  cases hv : st.pending_commands cmd_id with
  | none =>
    refine ⟨?_, ?_, ?_, ?_⟩
    · simp [_timeout_check, get_pending_commands_contains, hv]
    · simp [_timeout_check, hv]
    · simp [_timeout_check, hv]
    · intro p hp
      exact absurd hp (by simp)
  | some p =>
    refine ⟨?_, ?_, ?_, ?_⟩
    · simp [_timeout_check, get_pending_commands_contains, hv]
    · simp [_timeout_check, hv]
    · simp [_timeout_check, hv]
    · intro p2 hp2
      have hpp : p = p2 := by simpa using hp2
      subst hpp
      have hstate : (_timeout_check st cmd_id).2 = st := by
        simp [_timeout_check, hv]
      rw [hstate]
      refine ⟨hv, by simp [get_pending_commands_contains, hv], ?_⟩
      simp only [deny_command, hv]

/-- Claim C8 witness: with the sample pending command in place, the
callback emits the advisory event, the entry is still present afterwards,
and deny still succeeds. -/
theorem timeout_check_advisory_only_witness :
    sample_pending_state.pending_commands (strLit "id-1") = some sample_pending ∧
    (_timeout_check sample_pending_state (strLit "id-1")).1 =
      [Event.approval_timeout (strLit "id-1") approval_timeout_message] ∧
    ((_timeout_check sample_pending_state (strLit "id-1")).2.pending_commands
        (strLit "id-1") = some sample_pending ∧
      get_pending_commands_contains
        (_timeout_check sample_pending_state (strLit "id-1")).2
        (strLit "id-1") = true ∧
      (deny_command (_timeout_check sample_pending_state (strLit "id-1")).2
          (strLit "id-1") (strLit "late")).1 =
        .ok ([Event.denied (strLit "id-1") (strLit "late")],
             [HandleAction.reject (.runtimeError (strLit "late"))])) :=
  ⟨by decide,
   (timeout_check_advisory_only sample_pending_state (strLit "id-1")
      (strLit "late")).1.mpr (by decide),
   (timeout_check_advisory_only sample_pending_state (strLit "id-1")
      (strLit "late")).2.2.2 sample_pending (by decide)⟩

/-- Claim C2 counterexample: approve_command does not remove the pending
record before attempting execution.  With the sample pending command and a
failing execution, the pending mapping observable at the moment _run_now
is awaited still contains the id. -/
theorem approve_removes_after_execution_cex :
    sample_pending_state.pending_commands (strLit "id-1") = some sample_pending ∧
    (approve_command sample_pending_state (strLit "id-1")
        (.error (.runtimeError (strLit "spawn failure")))).pending_at_exec =
      some sample_pending_state.pending_commands ∧
    sample_pending_state.pending_commands (strLit "id-1") ≠ none :=
  ⟨by decide, rfl, by decide⟩

/-- Claim C2 as amended: approve_command removes the pending record after
the execution attempt, in the failure path as well, so a failed execution
still leaves the id absent from the pending mapping; the failed event with
id and error is published, the completion handle is rejected with the
failure, and the error propagates to the caller.  While execution is in
flight the record is still present: the mapping observed at execution time
is the unmodified one. -/
theorem approve_failure_state_consistency
    (st : ServiceState) (command_id : Str) (p : PendingCommand) (e : PyError)
    (h : st.pending_commands command_id = some p) :
    (approve_command st command_id (.error e)).ret = .error e ∧
    (approve_command st command_id (.error e)).state.pending_commands
      command_id = none ∧
    get_pending_commands_contains
      (approve_command st command_id (.error e)).state command_id = false ∧
    (approve_command st command_id (.error e)).events =
      [Event.failed command_id e] ∧
    (approve_command st command_id (.error e)).handle =
      [HandleAction.reject e] ∧
    (approve_command st command_id (.error e)).pending_at_exec =
      some st.pending_commands := by
  simp [approve_command, h, get_pending_commands_contains, Dict.pop]

/-- Claim C2 witness: the sample pending command approved with a failing
execution. -/
theorem approve_failure_state_consistency_witness :
    sample_pending_state.pending_commands (strLit "id-1") = some sample_pending ∧
    ((approve_command sample_pending_state (strLit "id-1")
        (.error (.runtimeError (strLit "boom")))).ret =
      .error (.runtimeError (strLit "boom")) ∧
     (approve_command sample_pending_state (strLit "id-1")
        (.error (.runtimeError (strLit "boom")))).state.pending_commands
        (strLit "id-1") = none ∧
     (approve_command sample_pending_state (strLit "id-1")
        (.error (.runtimeError (strLit "boom")))).events =
      [Event.failed (strLit "id-1") (.runtimeError (strLit "boom"))] ∧
     (approve_command sample_pending_state (strLit "id-1")
        (.error (.runtimeError (strLit "boom")))).handle =
      [HandleAction.reject (.runtimeError (strLit "boom"))]) := by
  have happ := approve_failure_state_consistency sample_pending_state
    (strLit "id-1") sample_pending (.runtimeError (strLit "boom")) (by decide)
  exact ⟨by decide, happ.1, happ.2.1, happ.2.2.2.1, happ.2.2.2.2.1⟩

/-- Claim C3: on a timeout the except branch of _run_now evaluates
contextlib.suppress, but contextlib is not among the module imports of
command_service.py, so a NameError is raised: the child process is not
killed and the raised error is not the timeout RuntimeError the code
intends two lines below. -/
theorem run_now_timeout_raises_name_error :
    _run_now_timeout_path.kill_attempted = false ∧
    _run_now_timeout_path.raised = .nameError (strLit "contextlib") ∧
    ∀ msg : Str, _run_now_timeout_path.raised ≠ .runtimeError msg := by
  refine ⟨by decide, by decide, ?_⟩
  intro msg
  rw [show _run_now_timeout_path.raised =
    PyError.nameError (strLit "contextlib") from by decide]
  exact fun hc => PyError.noConfusion hc

/-- Claim C9: for a child that completes within the timeout, the result is
exactly the replacement-decoded stdout and stderr; the exit status does
not influence the result and is not part of the CommandResult, and the
decoder is total, mapping an invalid byte to the replacement character
instead of raising. -/
theorem run_now_result_ignores_exit_status
    (stdout_b stderr_b : List Nat) (code1 code2 : Int) :
    _run_now_complete ⟨stdout_b, stderr_b, code1⟩ =
      _run_now_complete ⟨stdout_b, stderr_b, code2⟩ ∧
    _run_now_complete ⟨stdout_b, stderr_b, code1⟩ =
      { stdout := pyDecodeReplace stdout_b, stderr := pyDecodeReplace stderr_b } ∧
    pyDecodeReplace [255] = [replacement_char] := by
  have hd : ∀ bs : List Nat,
      (if bs ≠ [] then pyDecodeReplace bs else []) = pyDecodeReplace bs := by
    intro bs
    cases bs with
    | nil => simp [pyDecodeReplace, utf8DecodeLoop]
    | cons b rest => simp
  refine ⟨rfl, ?_, by decide⟩
  show CommandResult.mk _ _ = CommandResult.mk _ _
  rw [hd stdout_b, hd stderr_b]

end SuperShellMcp
